import Mathlib

/-!
Shallow embedding of the KYB verification service of this repository
(src/kyb.js), together with proofs about its name-similarity engine,
CRN-format validator, result compilation, job state machine and HTTP
continuation handler.

Strings are modelled by Lean `String` (lists of characters); the JS
floating-point similarity scores are modelled as rationals; JS objects
are modelled as structures; nullable values as `Option`; the truthiness
of JS strings (null/undefined/"" are falsy) by the `truthy` helper.
-/

/-! ## Levenshtein distance

kyb.js (lines 2401-2427) computes the Levenshtein distance with a
dynamic-programming matrix. We embed the matrix computation faithfully
(`levenshteinDistance`, built row by row exactly as the two nested `for`
loops do) and also define the textbook recurrence (`levRec`); the bridge
theorem `levenshteinDistance_eq_levRec` proves the program computes the
recurrence. -/

/-- Substitution cost used by the dynamic program in kyb.js line 2417:
0 when the two characters are equal, 1 otherwise. -/
def subCost (a b : Char) : Nat := if a = b then 0 else 1

/-- Textbook Levenshtein recurrence (the specification of the dynamic
program): distance to an empty string is the other string's length, and
the general case is the minimum of deletion, insertion and substitution,
in the same order as the Math.min call at kyb.js lines 2418-2422. -/
def levRec : List Char → List Char → Nat
  | [], ys => ys.length
  | xs, [] => xs.length
  | x :: xs, y :: ys =>
      min (min (levRec xs (y :: ys) + 1) (levRec (x :: xs) ys + 1))
        (levRec xs ys + subCost x y)
termination_by xs ys => xs.length + ys.length

/-- Inner loop of one row of the Levenshtein matrix (kyb.js lines
2415-2423): walking along s2, `up` is matrix[i-1][j], `left` is
matrix[i][j-1] and `diag` is matrix[i-1][j-1]. -/
def levRowGo (a : Char) : List Char → List Nat → Nat → Nat → List Nat
  | [], _, _, _ => []
  | _ :: _, [], _, _ => []
  | b :: bs, up :: ups, left, diag =>
      let v := min (min (up + 1) (left + 1)) (diag + subCost a b)
      v :: levRowGo a bs ups v up

/-- One full row of the Levenshtein matrix: row i is computed from row
i-1, and its first cell is matrix[i][0] = i (kyb.js lines 2407-2409). -/
def levRow (a : Char) (s2 : List Char) (prev : List Nat) : List Nat :=
  match prev with
  | [] => []
  | p0 :: ptail => (p0 + 1) :: levRowGo a s2 ptail (p0 + 1) p0

/-- Embedding of levenshteinDistance (kyb.js lines 2401-2427): the early
returns for empty inputs, then the dynamic-programming matrix, built row
by row over s1 starting from the row matrix[0][j] = j; the result is the
bottom-right cell matrix[s1.length][s2.length]. -/
def levenshteinDistance (s1 s2 : String) : Nat :=
  if s1.length = 0 then s2.length
  else if s2.length = 0 then s1.length
  else
    ((s1.data.foldl (fun row a => levRow a s2.data row)
        (List.range (s2.length + 1))).getLastD 0)

theorem levRec_nil_left (ys : List Char) : levRec [] ys = ys.length := by
  simp [levRec]

theorem levRec_nil_right (xs : List Char) : levRec xs [] = xs.length := by
  cases xs <;> simp [levRec]

theorem subCost_comm (a b : Char) : subCost a b = subCost b a := by
  unfold subCost
  by_cases h : a = b
  · subst h; simp
  · rw [if_neg h, if_neg (fun hba => h hba.symm)]

theorem subCost_le_one (a b : Char) : subCost a b ≤ 1 := by
  unfold subCost
  split <;> omega

theorem subCost_self (a : Char) : subCost a a = 0 := by
  simp [subCost]

theorem levRec_self (xs : List Char) : levRec xs xs = 0 := by
  induction xs with
  | nil => simp [levRec]
  | cons x xs ih =>
      rw [levRec, subCost_self, ih]
      omega

theorem levRec_comm (xs ys : List Char) : levRec xs ys = levRec ys xs := by
  induction xs, ys using levRec.induct with
  | case1 ys => rw [levRec_nil_left, levRec_nil_right]
  | case2 xs => rw [levRec_nil_left, levRec_nil_right]
  | case3 x xs y ys ih1 ih2 ih3 =>
      rw [levRec, levRec, ih1, ih2, ih3, subCost_comm]
      omega

theorem levRec_le_max (xs ys : List Char) :
    levRec xs ys ≤ max xs.length ys.length := by
  induction xs, ys using levRec.induct with
  | case1 ys => rw [levRec_nil_left]; omega
  | case2 xs => rw [levRec_nil_right]; omega
  | case3 x xs y ys ih1 ih2 ih3 =>
      rw [levRec]
      have hc := subCost_le_one x y
      simp only [List.length_cons]
      omega

theorem levRec_singleton_left (x : Char) (zs : List Char) :
    levRec [x] zs = if x ∈ zs then zs.length - 1 else max zs.length 1 := by
  induction zs with
  | nil => simp [levRec]
  | cons z zs ih =>
      rw [show ([x] : List Char) = x :: [] from rfl, levRec, levRec_nil_left,
        levRec_nil_left, ih]
      by_cases hxz : x = z
      · subst hxz
        rw [subCost_self, if_pos (List.mem_cons_self x zs)]
        by_cases hx : x ∈ zs
        · rw [if_pos hx]
          simp only [List.length_cons]
          have hlen : 1 ≤ zs.length := List.length_pos.mpr (List.ne_nil_of_mem hx)
          omega
        · rw [if_neg hx]
          simp only [List.length_cons]
          omega
      · have hcz : subCost x z = 1 := by
          unfold subCost
          rw [if_neg hxz]
        rw [hcz]
        by_cases hx : x ∈ zs
        · rw [if_pos hx, if_pos (List.mem_cons_of_mem z hx)]
          simp only [List.length_cons]
          have hlen : 1 ≤ zs.length := List.length_pos.mpr (List.ne_nil_of_mem hx)
          omega
        · have hmem : x ∉ z :: zs := by
            intro hc
            rcases List.mem_cons.mp hc with h | h
            · exact hxz h
            · exact hx h
          rw [if_neg hx, if_neg hmem]
          simp only [List.length_cons]
          omega

theorem levRec_singleton_right (y : Char) (zs : List Char) :
    levRec zs [y] = if y ∈ zs then zs.length - 1 else max zs.length 1 := by
  rw [levRec_comm, levRec_singleton_left]

theorem levRec_cons_cons (x y : Char) (xs ys : List Char) :
    levRec (x :: xs) (y :: ys) =
      min (min (levRec xs (y :: ys) + 1) (levRec (x :: xs) ys + 1))
        (levRec xs ys + subCost x y) := by
  simp only [levRec]

theorem levRec_snoc (x y : Char) (xs ys : List Char) :
    levRec (xs ++ [x]) (ys ++ [y]) =
      min (min (levRec xs (ys ++ [y]) + 1) (levRec (xs ++ [x]) ys + 1))
        (levRec xs ys + subCost x y) := by
  induction xs, ys using levRec.induct with
  | case1 ys =>
      rw [List.nil_append, levRec_singleton_left, levRec_singleton_left,
        levRec_nil_left, levRec_nil_left]
      have hc := subCost_le_one x y
      have hc0 : x = y → subCost x y = 0 := fun h => by rw [h, subCost_self]
      by_cases hx : x ∈ ys
      · rw [if_pos (List.mem_append_left [y] hx), if_pos hx]
        have hlen : 1 ≤ ys.length := List.length_pos.mpr (List.ne_nil_of_mem hx)
        simp only [List.length_append, List.length_singleton]
        omega
      · rw [if_neg hx]
        by_cases hxy : x = y
        · rw [if_pos (by simp [hxy])]
          rw [hc0 hxy]
          simp only [List.length_append, List.length_singleton]
          omega
        · have hcs : subCost x y = 1 := by
            unfold subCost
            rw [if_neg hxy]
          rw [if_neg (by simp [hx, hxy]), hcs]
          simp only [List.length_append, List.length_singleton]
          omega
  | case2 xs1 hne =>
      rw [List.nil_append, levRec_singleton_right, levRec_singleton_right,
        levRec_nil_right, levRec_nil_right]
      have hc := subCost_le_one x y
      have hc0 : x = y → subCost x y = 0 := fun h => by rw [h, subCost_self]
      have hlen : 1 ≤ xs1.length := by
        cases xs1 with
        | nil => exact absurd rfl hne
        | cons c cs => simp
      by_cases hy : y ∈ xs1
      · rw [if_pos (List.mem_append_left [x] hy), if_pos hy]
        simp only [List.length_append, List.length_singleton]
        omega
      · rw [if_neg hy]
        by_cases hxy : y = x
        · rw [if_pos (by simp [hy, hxy]), hc0 hxy.symm]
          simp only [List.length_append, List.length_singleton]
          omega
        · have hcs : subCost x y = 1 := by
            unfold subCost
            rw [if_neg (fun h => hxy h.symm)]
          rw [if_neg (by simp [hy, hxy]), hcs]
          simp only [List.length_append, List.length_singleton]
          omega
  | case3 a xs1 b ys1 ih1 ih2 ih3 =>
      simp only [List.cons_append] at ih1 ih2 ih3 ⊢
      rw [levRec_cons_cons a b, levRec_cons_cons a b, levRec_cons_cons a b,
        levRec_cons_cons a b, ih1, ih2, ih3]
      simp only [← min_add_add_right, min_assoc]
      ac_rfl

theorem levRec_reverse (xs ys : List Char) :
    levRec xs.reverse ys.reverse = levRec xs ys := by
  induction xs, ys using levRec.induct with
  | case1 ys =>
      rw [List.reverse_nil, levRec_nil_left, levRec_nil_left, List.length_reverse]
  | case2 xs hne =>
      rw [List.reverse_nil, levRec_nil_right, levRec_nil_right, List.length_reverse]
  | case3 x xs y ys ih1 ih2 ih3 =>
      rw [List.reverse_cons, List.reverse_cons, levRec_snoc, levRec_cons_cons,
        ← List.reverse_cons y, ih1, ← List.reverse_cons x, ih2, ih3]

/-- Row j of the invariant for the dynamic program: the cells of one matrix
row past column done.length, phrased over the prefix of s2 consumed so far. -/
def rowTailSpec (xs : List Char) : List Char → List Char → List Nat
  | _, [] => []
  | done, b :: bs => levRec xs (done ++ [b]) :: rowTailSpec xs (done ++ [b]) bs

theorem levRowGo_spec (a : Char) (xs : List Char) (bs : List Char) :
    ∀ done : List Char,
      levRowGo a bs (rowTailSpec xs done bs) (levRec (xs ++ [a]) done)
          (levRec xs done)
        = rowTailSpec (xs ++ [a]) done bs := by
  induction bs with
  | nil => intro done; rfl
  | cons b bs ih =>
      intro done
      show levRowGo a (b :: bs)
          (levRec xs (done ++ [b]) :: rowTailSpec xs (done ++ [b]) bs)
          (levRec (xs ++ [a]) done) (levRec xs done)
        = levRec (xs ++ [a]) (done ++ [b])
            :: rowTailSpec (xs ++ [a]) (done ++ [b]) bs
      rw [levRowGo]
      have hv : min (min (levRec xs (done ++ [b]) + 1) (levRec (xs ++ [a]) done + 1))
          (levRec xs done + subCost a b) = levRec (xs ++ [a]) (done ++ [b]) :=
        (levRec_snoc a b xs done).symm
      rw [hv, ih (done ++ [b])]

theorem levRow_spec (a : Char) (xs ys : List Char) :
    levRow a ys (levRec xs [] :: rowTailSpec xs [] ys)
      = levRec (xs ++ [a]) [] :: rowTailSpec (xs ++ [a]) [] ys := by
  rw [levRow]
  have h1 : levRec xs [] + 1 = levRec (xs ++ [a]) [] := by
    rw [levRec_nil_right, levRec_nil_right, List.length_append,
      List.length_singleton]
  rw [h1]
  rw [levRowGo_spec a xs ys []]

theorem foldl_levRow_spec (ys : List Char) (rest : List Char) :
    ∀ xs : List Char,
      List.foldl (fun row a => levRow a ys row)
          (levRec xs [] :: rowTailSpec xs [] ys) rest
        = levRec (xs ++ rest) [] :: rowTailSpec (xs ++ rest) [] ys := by
  induction rest with
  | nil => intro xs; rw [List.foldl_nil, List.append_nil]
  | cons a rest ih =>
      intro xs
      rw [List.foldl_cons, levRow_spec, ih (xs ++ [a]), List.append_assoc,
        List.singleton_append]

theorem rowTailSpec_nil_left (bs : List Char) :
    ∀ done : List Char,
      rowTailSpec [] done bs = List.range' (done.length + 1) bs.length := by
  induction bs with
  | nil => intro done; rfl
  | cons b bs ih =>
      intro done
      show levRec [] (done ++ [b]) :: rowTailSpec [] (done ++ [b]) bs
        = List.range' (done.length + 1) (b :: bs).length
      rw [levRec_nil_left, List.length_append, List.length_singleton,
        ih (done ++ [b]), List.length_append, List.length_singleton,
        List.length_cons, List.range'_succ]

theorem initial_row_spec (ys : List Char) :
    List.range (ys.length + 1) = levRec [] [] :: rowTailSpec [] [] ys := by
  rw [List.range_eq_range', List.range'_succ, rowTailSpec_nil_left ys [],
    levRec_nil_left]
  rfl

theorem rowTailSpec_getLastD (xs : List Char) (bs : List Char) :
    ∀ (done : List Char) (v d : Nat), bs ≠ [] →
      (v :: rowTailSpec xs done bs).getLastD d = levRec xs (done ++ bs) := by
  induction bs with
  | nil => intro done v d h; exact absurd rfl h
  | cons b bs ih =>
      intro done v d h
      show (v :: levRec xs (done ++ [b]) :: rowTailSpec xs (done ++ [b]) bs).getLastD d
        = levRec xs (done ++ b :: bs)
      rw [show (done ++ b :: bs : List Char) = (done ++ [b]) ++ bs by
        rw [List.append_assoc, List.singleton_append]]
      rw [List.getLastD_cons]
      cases bs with
      | nil =>
          rw [List.append_nil]
          rfl
      | cons b2 bs2 =>
          exact ih (done ++ [b]) (levRec xs (done ++ [b])) v (by simp)

/-- The dynamic program of kyb.js lines 2401-2427 computes exactly the
textbook Levenshtein recurrence. -/
theorem levenshteinDistance_eq_levRec (s1 s2 : String) :
    levenshteinDistance s1 s2 = levRec s1.data s2.data := by
  unfold levenshteinDistance
  by_cases h1 : s1.length = 0
  · have hd1 : s1.data = [] := List.length_eq_zero.mp h1
    rw [if_pos h1, hd1, levRec_nil_left]
    rfl
  · rw [if_neg h1]
    by_cases h2 : s2.length = 0
    · have hd2 : s2.data = [] := List.length_eq_zero.mp h2
      rw [if_pos h2, hd2, levRec_nil_right]
      rfl
    · rw [if_neg h2]
      have hlen : s2.length = s2.data.length := rfl
      rw [hlen, initial_row_spec s2.data,
        show (levRec [] [] :: rowTailSpec [] [] s2.data)
            = (levRec ([] : List Char) [] :: rowTailSpec [] [] s2.data) from rfl,
        foldl_levRow_spec s2.data s1.data [], List.nil_append]
      have hbs : s2.data ≠ [] := fun hc => h2 (by rw [show s2.length = s2.data.length from rfl, hc]; rfl)
      rw [rowTailSpec_getLastD s1.data s2.data [] (levRec s1.data []) 0 hbs,
        List.nil_append]

/-! ## Company-name normalization

kyb.js lines 2387-2398: lowercase, delete the legal-entity alternation
limited|ltd\.?|llc|llp|inc\.?|incorporated|plc|corporation|corp\.?|company
(a global, case-insensitive regex replace: left-to-right scan, at each
position the first alternative in pattern order that matches is removed),
delete punctuation ([^\w\s]), collapse whitespace runs to one space, trim.
JS regex semantics are embedded for the ASCII character classes actually
exercised by these strings. -/

/-- One alternative of a legal-entity alternation: the literal word and
whether the pattern allows an optional trailing dot (a greedy \.?). -/
structure LegalAlt where
  word : String
  optDot : Bool
deriving DecidableEq

/-- The alternatives of the regex at kyb.js line 2392, in pattern order.
Note inc\.? comes before incorporated, so on the text incorporated the
scan removes only the inc (regex alternation is first-match, not
longest-match). -/
def legalEntityAlts : List LegalAlt :=
  [⟨"limited", false⟩, ⟨"ltd", true⟩, ⟨"llc", false⟩, ⟨"llp", false⟩,
   ⟨"inc", true⟩, ⟨"incorporated", false⟩, ⟨"plc", false⟩,
   ⟨"corporation", false⟩, ⟨"corp", true⟩, ⟨"company", false⟩]

/-- Tries one alternative at the head of the character list, returning
the characters after the match; the optional dot is consumed greedily. -/
def matchAlt (alt : LegalAlt) (cs : List Char) : Option (List Char) :=
  if alt.word.data.isPrefixOf cs then
    let rest := cs.drop alt.word.data.length
    if alt.optDot then
      match rest with
      | '.' :: rest2 => some rest2
      | _ => some rest
    else some rest
  else none

/-- First alternative (in pattern order) matching at the head, if any. -/
def firstAltMatch (alts : List LegalAlt) (cs : List Char) : Option (List Char) :=
  match alts with
  | [] => none
  | alt :: rest =>
      match matchAlt alt cs with
      | some cs2 => some cs2
      | none => firstAltMatch rest cs

/-- Left-to-right global replace of the alternation with the empty
string: on a match the matched text is dropped and the scan resumes
after it, otherwise one character is kept. Fuel bounds the recursion;
the list length is enough fuel because every step consumes at least one
character. -/
def stripAltsGo (alts : List LegalAlt) : Nat → List Char → List Char
  | 0, cs => cs
  | _ + 1, [] => []
  | fuel + 1, c :: rest =>
      match firstAltMatch alts (c :: rest) with
      | some rest2 => stripAltsGo alts fuel rest2
      | none => c :: stripAltsGo alts fuel rest

/-- Global regex replace of an alternation of literal words by "". -/
def stripAlts (alts : List LegalAlt) (cs : List Char) : List Char :=
  stripAltsGo alts cs.length cs

/-- JS regex character class \w, i.e. [A-Za-z0-9_]. -/
def isWordChar (c : Char) : Bool := c.isAlphanum || c = '_'

/-- JS regex character class \s, restricted to the ASCII whitespace
characters (space, tab, line feed, carriage return, vertical tab, form
feed); the Unicode space characters are not exercised here. -/
def isSpaceChar (c : Char) : Bool :=
  c = ' ' || c = '\t' || c = '\n' || c = '\r' || c = '\x0b' || c = '\x0c'

/-- Replace every maximal whitespace run by a single space, as the
replace(/\s+/g, ' ') at kyb.js line 2396 does; the flag records whether
the previous character belonged to a run. -/
def collapseWsGo : List Char → Bool → List Char
  | [], _ => []
  | c :: rest, prevWs =>
      if isSpaceChar c then
        if prevWs then collapseWsGo rest true
        else ' ' :: collapseWsGo rest true
      else c :: collapseWsGo rest false

def collapseWs (cs : List Char) : List Char := collapseWsGo cs false

/-- JS String.trim: drop whitespace from both ends. -/
def trimWs (cs : List Char) : List Char :=
  ((cs.dropWhile isSpaceChar).reverse.dropWhile isSpaceChar).reverse

/-- Embedding of normalizeCompanyName (kyb.js lines 2387-2398): the
falsy-input guard, lowercase, strip the legal-entity alternation, strip
punctuation (keep only \w and \s characters), collapse whitespace, trim. -/
def normalizeCompanyName (name : String) : String :=
  if name = "" then ""
  else
    String.mk (trimWs (collapseWs
      ((stripAlts legalEntityAlts (name.data.map Char.toLower)).filter
        (fun c => isWordChar c || isSpaceChar c))))

/-- Embedding of calculateNameSimilarity (kyb.js lines 2371-2384):
normalize both names, take the Levenshtein distance, and return
1 - distance / maxLength, or 1.0 when both normalized strings are empty.
The JS float is modelled as a rational. -/
def calculateNameSimilarity (name1 name2 : String) : Rat :=
  let n1 := normalizeCompanyName name1
  let n2 := normalizeCompanyName name2
  let distance := levenshteinDistance n1 n2
  let maxLength := max n1.length n2.length
  if maxLength = 0 then 1
  else 1 - (distance : Rat) / (maxLength : Rat)

theorem levenshteinDistance_comm (s t : String) :
    levenshteinDistance s t = levenshteinDistance t s := by
  rw [levenshteinDistance_eq_levRec, levenshteinDistance_eq_levRec, levRec_comm]

theorem levenshteinDistance_self (s : String) : levenshteinDistance s s = 0 := by
  rw [levenshteinDistance_eq_levRec, levRec_self]


theorem levenshteinDistance_le_max (s t : String) :
    levenshteinDistance s t ≤ max s.length t.length := by
  rw [levenshteinDistance_eq_levRec]
  exact levRec_le_max s.data t.data

/-- C5: the name-similarity function of kyb.js is symmetric, always lies
between 0 and 1, and equals exactly 1 on identical inputs. -/
theorem calculateNameSimilarity_props (a b : String) :
    calculateNameSimilarity a b = calculateNameSimilarity b a
    ∧ 0 ≤ calculateNameSimilarity a b
    ∧ calculateNameSimilarity a b ≤ 1
    ∧ calculateNameSimilarity a a = 1 := by
  refine ⟨?_, ?_, ?_, ?_⟩
  · simp only [calculateNameSimilarity]
    rw [levenshteinDistance_comm, max_comm]
  · simp only [calculateNameSimilarity]
    split
    · norm_num
    · rename_i hm
      have hdm : levenshteinDistance (normalizeCompanyName a) (normalizeCompanyName b)
          ≤ max (normalizeCompanyName a).length (normalizeCompanyName b).length :=
        levenshteinDistance_le_max _ _
      have hm0 : (0 : Rat) <
          ((max (normalizeCompanyName a).length (normalizeCompanyName b).length : Nat) : Rat) := by
        exact_mod_cast Nat.pos_of_ne_zero hm
      have hq : (levenshteinDistance (normalizeCompanyName a) (normalizeCompanyName b) : Rat)
          / ((max (normalizeCompanyName a).length (normalizeCompanyName b).length : Nat) : Rat)
          ≤ 1 := by
        rw [div_le_one hm0]
        exact_mod_cast hdm
      linarith
  · simp only [calculateNameSimilarity]
    split
    · norm_num
    · rename_i hm
      have hm0 : (0 : Rat) <
          ((max (normalizeCompanyName a).length (normalizeCompanyName b).length : Nat) : Rat) := by
        exact_mod_cast Nat.pos_of_ne_zero hm
      have hq : (0 : Rat) ≤
          (levenshteinDistance (normalizeCompanyName a) (normalizeCompanyName b) : Rat)
          / ((max (normalizeCompanyName a).length (normalizeCompanyName b).length : Nat) : Rat) :=
        div_nonneg (by positivity) (le_of_lt hm0)
      linarith
  · simp only [calculateNameSimilarity, levenshteinDistance_self]
    split
    · rfl
    · norm_num

/-- The suffix list as the spec words it for the similarity engine: Ltd,
Limited, LLC, LLP, Inc, PLC, Corp, Company, Group, Holdings, UK. This is
the spec-side comparator for claim C2; only the list differs from the
source's alternation. -/
def specLegalAlts : List LegalAlt :=
  [⟨"ltd", false⟩, ⟨"limited", false⟩, ⟨"llc", false⟩, ⟨"llp", false⟩,
   ⟨"inc", false⟩, ⟨"plc", false⟩, ⟨"corp", false⟩, ⟨"company", false⟩,
   ⟨"group", false⟩, ⟨"holdings", false⟩, ⟨"uk", false⟩]

/-- Normalization exactly as the spec words it: lowercase, strip the
spec's suffix list, strip punctuation, collapse whitespace. -/
def specNormalizeCompanyName (name : String) : String :=
  String.mk (trimWs (collapseWs
    ((stripAlts specLegalAlts (name.data.map Char.toLower)).filter
      (fun c => isWordChar c || isSpaceChar c))))

/-- Similarity exactly as the spec words it: 1 minus the Levenshtein
distance between the normalized strings divided by the longer normalized
length, with 1.0 when both are empty. -/
def specNameSimilarity (name1 name2 : String) : Rat :=
  let n1 := specNormalizeCompanyName name1
  let n2 := specNormalizeCompanyName name2
  if max n1.length n2.length = 0 then 1
  else 1 - (levRec n1.data n2.data : Rat) / ((max n1.length n2.length : Nat) : Rat)

/-- C2 counterexample: normalizeCompanyName does not strip the token
Group (nor Holdings or UK), so on the pair of inputs "A Group" and "A"
the code returns 1/7 while the algorithm described by the claim returns
1. -/
theorem calculateNameSimilarity_ne_spec :
    calculateNameSimilarity "A Group" "A" = 1 / 7
    ∧ specNameSimilarity "A Group" "A" = 1
    ∧ calculateNameSimilarity "A Group" "A" ≠ specNameSimilarity "A Group" "A" := by
  have hn1 : normalizeCompanyName "A Group" = "a group" := by decide
  have hn2 : normalizeCompanyName "A" = "a" := by decide
  have hd : levenshteinDistance "a group" "a" = 6 := by decide
  have hl1 : ("a group" : String).length = 7 := by decide
  have hl2 : ("a" : String).length = 1 := by decide
  have hcode : calculateNameSimilarity "A Group" "A" = 1 / 7 := by
    simp only [calculateNameSimilarity, hn1, hn2, hd, hl1, hl2]
    norm_num
  have hs1 : specNormalizeCompanyName "A Group" = "a" := by decide
  have hs2 : specNormalizeCompanyName "A" = "a" := by decide
  have hspec : specNameSimilarity "A Group" "A" = 1 := by
    simp only [specNameSimilarity, hs1, hs2, levRec_self, hl2]
    norm_num
  refine ⟨hcode, hspec, ?_⟩
  rw [hcode, hspec]
  norm_num

/-- C2 amended: calculateNameSimilarity normalizes with the source's
alternation limited, ltd(.), llc, llp, inc(.), incorporated, plc,
corporation, corp(.), company, each removed wherever it occurs (Group,
Holdings and UK are not stripped), then returns 1 minus the Levenshtein
distance between the normalized strings divided by the longer normalized
length, with 1.0 when both normalized strings are empty. That the
program's dynamic-programming distance is the Levenshtein recurrence is
the content of this theorem. -/
theorem calculateNameSimilarity_amended (name1 name2 : String) :
    calculateNameSimilarity name1 name2 =
      (if max (normalizeCompanyName name1).length (normalizeCompanyName name2).length = 0
       then 1
       else 1 -
        (levRec (normalizeCompanyName name1).data (normalizeCompanyName name2).data : Rat)
          / ((max (normalizeCompanyName name1).length
              (normalizeCompanyName name2).length : Nat) : Rat)) := by
  simp only [calculateNameSimilarity, levenshteinDistance_eq_levRec]

/-- C10: two distinct non-empty names that normalization reduces to the
empty string (for example names made only of legal-entity suffixes and
punctuation, such as "Ltd" and "Inc.") are scored as a perfect 1.0 match
by calculateNameSimilarity, above every acceptance threshold. -/
theorem normalizedEmpty_similarity_one (s1 s2 : String)
    (_hne : s1 ≠ s2) (_h1 : s1 ≠ "") (_h2 : s2 ≠ "")
    (hn1 : normalizeCompanyName s1 = "") (hn2 : normalizeCompanyName s2 = "") :
    calculateNameSimilarity s1 s2 = 1 ∧ (9 : Rat) / 10 ≤ calculateNameSimilarity s1 s2 := by
  have h : calculateNameSimilarity s1 s2 = 1 := by
    simp [calculateNameSimilarity, hn1, hn2]
  exact ⟨h, by rw [h]; norm_num⟩

/-- C10 witness: the suffix-only pair "Ltd" and "Inc." is scored 1.0. -/
theorem normalizedEmpty_similarity_one_app :
    calculateNameSimilarity "Ltd" "Inc." = 1
    ∧ (9 : Rat) / 10 ≤ calculateNameSimilarity "Ltd" "Inc." :=
  normalizedEmpty_similarity_one "Ltd" "Inc." (by decide) (by decide) (by decide)
    (by decide) (by decide)

/-! ## CRN format validation -/

/-- The second regex of validateCRNFormat, ^(SC|NI|OC)\d{6,8}$ (kyb.js
line 1986): a two-letter jurisdiction prefix from the fixed set SC, NI,
OC (case-sensitive, the regex has no i flag) followed by 6 to 8 digits. -/
def matchPrefixedCRN : List Char → Bool
  | c1 :: c2 :: rest =>
      ((c1 == 'S' && c2 == 'C') || (c1 == 'N' && c2 == 'I') || (c1 == 'O' && c2 == 'C'))
        && decide (6 ≤ rest.length) && decide (rest.length ≤ 8)
        && rest.all Char.isDigit
  | _ => false

/-- Embedding of validateCRNFormat (kyb.js lines 1979-1991): true for a
standard 8-digit CRN (^\d{8}$), true for a prefixed CRN, false
otherwise. -/
def validateCRNFormat (crn : String) : Bool :=
  if crn.data.length == 8 && crn.data.all Char.isDigit then true
  else if matchPrefixedCRN crn.data then true
  else false

/-- The CRN-format contract as the spec states it: exactly 8 digits, or
a 2-letter jurisdiction prefix from a small fixed set followed by 6-8
digits. -/
def ValidCRNSpec (crn : String) : Prop :=
  (crn.data.length = 8 ∧ ∀ c ∈ crn.data, c.isDigit = true)
  ∨ (∃ p1 p2 ds, (p1, p2) ∈ [('S', 'C'), ('N', 'I'), ('O', 'C')]
      ∧ crn.data = p1 :: p2 :: ds ∧ 6 ≤ ds.length ∧ ds.length ≤ 8
      ∧ ∀ c ∈ ds, c.isDigit = true)

theorem validateCRNFormat_iff (crn : String) :
    validateCRNFormat crn = true ↔ ValidCRNSpec crn := by
  unfold validateCRNFormat ValidCRNSpec
  constructor
  · intro h
    by_cases hA : (crn.data.length == 8 && crn.data.all Char.isDigit) = true
    · left
      simpa only [Bool.and_eq_true, beq_iff_eq, List.all_eq_true] using hA
    · rw [if_neg hA] at h
      by_cases hB : matchPrefixedCRN crn.data = true
      · right
        cases hd : crn.data with
        | nil => rw [hd] at hB; simp [matchPrefixedCRN] at hB
        | cons c1 tail =>
          cases tail with
          | nil => rw [hd] at hB; simp [matchPrefixedCRN] at hB
          | cons c2 rest =>
            rw [hd] at hB
            simp only [matchPrefixedCRN, Bool.and_eq_true, Bool.or_eq_true,
              beq_iff_eq, decide_eq_true_eq, List.all_eq_true] at hB
            obtain ⟨⟨⟨hpre, h6⟩, h8⟩, hdig⟩ := hB
            have hmem : (c1, c2) ∈ [('S', 'C'), ('N', 'I'), ('O', 'C')] := by
              rcases hpre with (hp | hp) | hp
              · rw [hp.1, hp.2]; simp
              · rw [hp.1, hp.2]; simp
              · rw [hp.1, hp.2]; simp
            exact ⟨c1, c2, rest, hmem, rfl, h6, h8, hdig⟩
      · rw [if_neg hB] at h
        exact absurd h (by simp)
  · intro h
    rcases h with ⟨hlen, hdig⟩ | ⟨p1, p2, ds, hp, hdata, h6, h8, hdig⟩
    · have hA : (crn.data.length == 8 && crn.data.all Char.isDigit) = true := by
        simp only [Bool.and_eq_true, beq_iff_eq, List.all_eq_true]
        exact ⟨hlen, hdig⟩
      rw [if_pos hA]
    · by_cases hA : (crn.data.length == 8 && crn.data.all Char.isDigit) = true
      · rw [if_pos hA]
      · rw [if_neg hA]
        have hB : matchPrefixedCRN crn.data = true := by
          rw [hdata]
          simp only [matchPrefixedCRN, Bool.and_eq_true, Bool.or_eq_true,
            beq_iff_eq, decide_eq_true_eq, List.all_eq_true]
          refine ⟨⟨⟨?_, h6⟩, h8⟩, hdig⟩
          simp only [List.mem_cons, List.mem_singleton, Prod.mk.injEq,
            List.not_mem_nil, or_false] at hp
          rcases hp with ⟨e1, e2⟩ | ⟨e1, e2⟩ | ⟨e1, e2⟩
          · subst e1; subst e2; simp
          · subst e1; subst e2; simp
          · subst e1; subst e2; simp
        rw [if_pos hB]

/-- C6: validateCRNFormat is a pure Boolean predicate accepting exactly
the strings that are 8 digits or an SC/NI/OC prefix followed by 6-8
digits; "12345678" and "SC123456" are accepted, "1234567" and the
lowercase "sc123456" are rejected. -/
theorem validateCRNFormat_props :
    (∀ crn : String, validateCRNFormat crn = true ↔ ValidCRNSpec crn)
    ∧ validateCRNFormat "12345678" = true
    ∧ validateCRNFormat "SC123456" = true
    ∧ validateCRNFormat "1234567" = false
    ∧ validateCRNFormat "sc123456" = false :=
  ⟨validateCRNFormat_iff, by decide, by decide, by decide, by decide⟩

/-! ## Job state machine

The orchestrator of kyb.js keeps two process-wide maps, jobStatus and
jobLogs; the state of a single job is embedded as a status string plus
the list of its log entries. Timestamps and the raw data payloads of log
entries are not modelled (no claim depends on them). -/

/-- Truthiness of an optional JS string: null/undefined and the empty
string are falsy. -/
def truthy : Option String → Bool
  | none => false
  | some s => !(s == "")

/-- A log entry: its step label, an optional message and the
required_fields map (a list of field-name / description pairs). -/
structure LogEntry where
  step : String
  message : Option String
  required_fields : List (String × String)
deriving DecidableEq

/-- The state of one job: the value of jobStatus[jobId] and the list
jobLogs[jobId]. -/
structure JobState where
  status : String
  log : List LogEntry
deriving DecidableEq

/-- The ten sites in kyb.js that assign jobStatus[...] = action_required,
with the dynamic strings each site interpolates into its log entry:
lines 933 (kybTask, no CRN found), 960 (company not active), 993 (wrong
company detected), 1013 (moderate name mismatch, confirmation), 1148
(CRN verification error), 1326 (kybContinue, no CRN for new name), 1352
(kybContinue, lookup error), 1372 (kybContinue, website only), 1386
(kybContinue, other data), 1964 (processCRN error). -/
inductive ARSite where
  | noCrnFound
  | companyNotActive (companyName crn status : String)
  | wrongCompanyDetected (foundName requestedName crn : String)
  | nameConfirmation (foundName requestedName crn : String)
  | crnVerificationError (crn errMsg : String)
  | continueNoCrnForName (newName : String)
  | continueLookupError (newName : String)
  | continueWebsiteOnly
  | continueOtherData
  | processCrnError (crn errMsg : String)

/-- The log entry pushed by each action_required site, with the step
label, message and required_fields taken verbatim from the source. -/
def arLogEntry : ARSite → LogEntry
  | .noCrnFound =>
      ⟨"Action Required",
       some "Could not find active CRN automatically. Please provide the Company Registration Number or additional details.",
       [("crn", "Company Registration Number (8 digits or 2 letters + 6 digits) for an ACTIVE company"),
        ("website", "Company website URL (optional)"),
        ("company_name", "Exact company name (optional)")]⟩
  | .companyNotActive n c st =>
      ⟨"Company Status Error",
       some ("The identified company (" ++ n ++ ") with CRN " ++ c
         ++ " is not active. Status: " ++ st),
       [("crn", "Please provide a CRN for an ACTIVE company")]⟩
  | .wrongCompanyDetected f r c =>
      ⟨"Wrong Company Detected",
       some ("ERROR: Found company \"" ++ f ++ "\" with CRN " ++ c
         ++ ", but this appears to be a completely different company from \""
         ++ r ++ "\". Please provide the correct CRN."),
       [("crn", "Please provide the correct CRN for \"" ++ r
         ++ "\" (not for \"" ++ f ++ "\")")]⟩
  | .nameConfirmation f r c =>
      ⟨"Action Required",
       some ("Found company \"" ++ f ++ "\" with CRN " ++ c
         ++ ", but the name is different from \"" ++ r
         ++ "\". Please confirm if this is correct."),
       [("confirm_company", "Type \"yes\" to confirm this is the correct company, or provide a different CRN")]⟩
  | .crnVerificationError c e =>
      ⟨"CRN Verification Error",
       some ("Error verifying CRN " ++ c ++ " with Companies House: " ++ e),
       [("crn", "Please provide a valid CRN for an active company")]⟩
  | .continueNoCrnForName n =>
      ⟨"Action Required",
       some ("Could not find CRN for \"" ++ n
         ++ "\". Please provide the Company Registration Number directly."),
       [("crn", "Company Registration Number (8 digits or 2 letters + 6 digits)")]⟩
  | .continueLookupError n =>
      ⟨"Action Required",
       some ("Error looking up company \"" ++ n
         ++ "\". Please provide the Company Registration Number directly."),
       [("crn", "Company Registration Number (8 digits or 2 letters + 6 digits)")]⟩
  | .continueWebsiteOnly =>
      ⟨"Action Required",
       some "Website provided but Company Registration Number is still required",
       [("crn", "Company Registration Number (8 digits or 2 letters + 6 digits)")]⟩
  | .continueOtherData =>
      ⟨"Action Required",
       some "More information needed to continue",
       [("crn", "Company Registration Number (8 digits or 2 letters + 6 digits)")]⟩
  | .processCrnError c e =>
      ⟨"Action Required",
       some ("Error processing CRN " ++ c ++ ": " ++ e
         ++ ". Please provide a valid CRN."),
       [("crn", "Valid Company Registration Number")]⟩

/-- The effect every action_required site has on the job: set the status
and append the site's log entry. -/
def applyActionRequired (s : ARSite) (j : JobState) : JobState :=
  { status := "action_required", log := j.log ++ [arLogEntry s] }

/-- The step labels used by the action_required/error log entries. -/
def actionRequiredSteps : List String :=
  ["Action Required", "Company Status Error", "Wrong Company Detected",
   "CRN Verification Error"]

/-- C3: every code path that assigns the action_required status appends
a log entry whose step is one of the action-required/error step labels
and which carries a non-empty required_fields map, and the existing log
is preserved. -/
theorem actionRequired_always_has_required_fields (s : ARSite) (j : JobState) :
    (applyActionRequired s j).status = "action_required"
    ∧ (applyActionRequired s j).log = j.log ++ [arLogEntry s]
    ∧ (arLogEntry s).required_fields ≠ []
    ∧ (arLogEntry s).step ∈ actionRequiredSteps := by
  refine ⟨rfl, rfl, ?_, ?_⟩ <;> cases s <;> simp [arLogEntry, actionRequiredSteps]

/-! ## processCRN entry: the no-CRN completion (kyb.js 1408-1496) -/

/-- The nested company object of the not-found result (kyb.js
1418-1436), restricted to the company-identity fields (the remaining
fields of the object are constants of the same shape). -/
structure NotFoundCompany where
  name : Option String
  registrationNumber : Option String
  address : Option String
  companyStatus : Option String
  companyType : Option String
  dateOfCreation : Option String
deriving DecidableEq

/-- The not-found verification result compiled when processCRN is
entered without a CRN (kyb.js 1417-1474): every company-identity field
is null, the verification status is no_company_found, and the single
validation issue and the details message are the literals from the
source. -/
structure NotFoundResult where
  company : NotFoundCompany
  company_name : Option String
  company_registration_number : Option String
  company_status : Option String
  company_type : Option String
  incorporation_date : Option String
  registered_address : Option String
  website_url : Option String
  verification_status : String
  verification_message : String
  validation_issues : List String
deriving DecidableEq

/-- The result object built at kyb.js lines 1417-1474. -/
def notFoundResult (business_name : String) (website : Option String) : NotFoundResult :=
  { company := ⟨none, none, none, none, none, none⟩
    company_name := none
    company_registration_number := none
    company_status := none
    company_type := none
    incorporation_date := none
    registered_address := none
    website_url := website
    verification_status := "no_company_found"
    verification_message := "No matching company found for: " ++ business_name
    validation_issues := ["No matching company found in Companies House records"] }

/-- The terminal Completed log entry pushed at kyb.js lines 1482-1490. -/
def completedNotFoundEntry (business_name : String) : LogEntry :=
  ⟨"Completed", some ("No matching company found for: " ++ business_name), []⟩

/-- Outcome of entering processCRN: either the job completes immediately
with the not-found result (the if (!crn) branch), or processing proceeds
to registry verification with the given CRN. -/
inductive ProcessCRNEntry where
  | completedNotFound (j : JobState) (r : NotFoundResult)
  | proceedToRegistry (crn : String)
deriving DecidableEq

/-- Embedding of the entry dispatch of jobProcessors.processCRN (kyb.js
1408-1496): a falsy crn (null or "") takes the not-found branch, which
appends the Completed entry, stores the result and sets the status to
completed; otherwise processing continues towards the registry. -/
def processCRNEntry (business_name : String) (crn : Option String)
    (website : Option String) (j : JobState) : ProcessCRNEntry :=
  if truthy crn then .proceedToRegistry (crn.getD "")
  else .completedNotFound
    { status := "completed", log := j.log ++ [completedNotFoundEntry business_name] }
    (notFoundResult business_name website)

/-- C4: when identity resolution concludes with no CRN, processCRN
completes the job (status completed, not failed or action_required) with
a result whose verification status is no_company_found and whose
company-identity fields are all null. -/
theorem noCrn_completes_with_null_fields (business_name : String)
    (website : Option String) (j : JobState) :
    processCRNEntry business_name none website j
      = .completedNotFound
          { status := "completed",
            log := j.log ++ [completedNotFoundEntry business_name] }
          (notFoundResult business_name website)
    ∧ (notFoundResult business_name website).verification_status = "no_company_found"
    ∧ (notFoundResult business_name website).company_name = none
    ∧ (notFoundResult business_name website).company_registration_number = none
    ∧ (notFoundResult business_name website).registered_address = none
    ∧ (notFoundResult business_name website).company_status = none
    ∧ (notFoundResult business_name website).company_type = none
    ∧ (notFoundResult business_name website).incorporation_date = none
    ∧ (notFoundResult business_name website).company
        = ⟨none, none, none, none, none, none⟩
    ∧ "completed" ≠ "failed" ∧ "completed" ≠ "action_required" := by
  refine ⟨rfl, rfl, rfl, rfl, rfl, rfl, rfl, rfl, rfl, by decide, by decide⟩

/-! ## Continuation processing (kyb.js 1171-1405) and the
POST /continueKYB handler (kyb.js 345-405) -/

/-- The additional data a continuation may carry: company_name, crn and
website, each possibly absent (and the empty string is falsy, as in JS). -/
structure AdditionalData where
  company_name : Option String
  crn : Option String
  website : Option String
deriving DecidableEq

/-- What jobProcessors.kybContinue decides to do with the additional
data: restart identity resolution with the new name (kyb.js 1180), go
straight to processCRN with the supplied CRN and website (kyb.js
1364-1366), or fall back to action_required asking for a CRN (kyb.js
1368-1381 when only a website came in, 1383-1395 otherwise). -/
inductive ContinueAction where
  | restartWithNewName (newName : String)
  | proceedWithCrn (crn : String) (website : Option String)
  | requestCrnWebsiteOnly
  | requestCrnOther
deriving DecidableEq

/-- Embedding of the branch structure of jobProcessors.kybContinue: the
first branch fires only when a company_name is supplied without a crn,
so a supplied crn always wins. -/
def kybContinueDispatch (ad : AdditionalData) : ContinueAction :=
  if truthy ad.company_name && !(truthy ad.crn) then
    .restartWithNewName (ad.company_name.getD "")
  else if truthy ad.crn then
    .proceedWithCrn (ad.crn.getD "") ad.website
  else if truthy ad.website then
    .requestCrnWebsiteOnly
  else
    .requestCrnOther

/-- C7: in kybContinue a supplied crn takes precedence over a supplied
company_name and goes straight to registry verification via processCRN;
a company_name alone restarts identity resolution from scratch; and a
continuation supplying none of crn, company_name or website is accepted
but puts the job back into action_required asking for a CRN, with the
attempt logged. -/
theorem kybContinue_branches (ad : AdditionalData) :
    (truthy ad.crn = true → truthy ad.company_name = true →
      kybContinueDispatch ad = .proceedWithCrn (ad.crn.getD "") ad.website
      ∧ ∀ (bn : String) (j : JobState),
          processCRNEntry bn ad.crn ad.website j
            = .proceedToRegistry (ad.crn.getD ""))
    ∧ (truthy ad.company_name = true → truthy ad.crn = false →
      kybContinueDispatch ad = .restartWithNewName (ad.company_name.getD ""))
    ∧ (truthy ad.crn = false → truthy ad.company_name = false →
      truthy ad.website = false →
      kybContinueDispatch ad = .requestCrnOther
      ∧ ∀ j : JobState,
          (applyActionRequired .continueOtherData j).status = "action_required"
          ∧ (applyActionRequired .continueOtherData j).log
              = j.log ++ [arLogEntry .continueOtherData]
          ∧ (arLogEntry .continueOtherData).required_fields.map Prod.fst = ["crn"]) := by
  refine ⟨?_, ?_, ?_⟩
  · intro hc hn
    constructor
    · unfold kybContinueDispatch
      rw [hc]
      simp
    · intro bn j
      unfold processCRNEntry
      rw [hc]
      simp
  · intro hn hc
    unfold kybContinueDispatch
    rw [hn, hc]
    simp
  · intro hc hn hw
    constructor
    · unfold kybContinueDispatch
      rw [hc, hn, hw]
      simp
    · intro j
      exact ⟨rfl, rfl, rfl⟩

/-- C7 witness: the three branches at concrete continuation payloads:
both crn and company_name supplied, only company_name supplied, and
nothing supplied. -/
theorem kybContinue_branches_app :
    kybContinueDispatch ⟨some "Acme", some "12345678", none⟩
      = .proceedWithCrn "12345678" none
    ∧ kybContinueDispatch ⟨some "Acme", none, none⟩ = .restartWithNewName "Acme"
    ∧ kybContinueDispatch ⟨none, none, none⟩ = .requestCrnOther :=
  ⟨((kybContinue_branches ⟨some "Acme", some "12345678", none⟩).1
      (by decide) (by decide)).1,
   (kybContinue_branches ⟨some "Acme", none, none⟩).2.1 (by decide) (by decide),
   ((kybContinue_branches ⟨none, none, none⟩).2.2
      (by decide) (by decide) (by decide)).1⟩

/-- The responses the POST /continueKYB handler can produce (kyb.js
345-405): HTTP 400, HTTP 404, or the 200 acknowledgement. -/
inductive HandlerResponse where
  | badRequest (error : String)
  | notFound (error : String)
  | ok (message : String)
deriving DecidableEq

/-- The Additional Information log entry pushed by the handler at kyb.js
362-366 (its data payload, the raw additional fields, is not modelled). -/
def additionalInfoEntry : LogEntry :=
  ⟨"Additional Information", none, []⟩

/-- The acknowledgement message chosen at kyb.js 387-404. -/
def continueAckMessage (ad : AdditionalData) : String :=
  if truthy ad.crn then "Job continuing with provided CRN"
  else if truthy ad.website then "Job continuing with provided website"
  else "Job continuing with provided information"

/-- Embedding of the POST /continueKYB handler (kyb.js 345-405):
reject a falsy job_id with 400, an unknown job with 404, a job not in
action_required with 400 (before touching its log or status), and
otherwise log the additional information, flip the status to processing
and acknowledge. `job` is the jobStatus/jobLogs lookup for the given id.
The function returns the response and the job state after the call. -/
def continueKYBHandler (job_id : Option String) (job : Option JobState)
    (ad : AdditionalData) : HandlerResponse × Option JobState :=
  if !(truthy job_id) then (.badRequest "job_id is required", job)
  else
    match job with
    | none => (.notFound "Job not found", none)
    | some st =>
      if !(st.status == "action_required") then
        (.badRequest "Job is not awaiting additional information", some st)
      else
        (.ok (continueAckMessage ad),
         some { status := "processing", log := st.log ++ [additionalInfoEntry] })

/-- C8: /continueKYB returns 400 for a missing job_id, 404 for an
unknown job, and 400 for a job that exists but is not action_required,
in the last case leaving the job's status and log untouched. -/
theorem continueKYB_guards (job_id : Option String) (st : JobState)
    (ad : AdditionalData) :
    (truthy job_id = false → ∀ job : Option JobState,
      continueKYBHandler job_id job ad = (.badRequest "job_id is required", job))
    ∧ (truthy job_id = true →
      continueKYBHandler job_id none ad = (.notFound "Job not found", none))
    ∧ (truthy job_id = true → st.status ≠ "action_required" →
      continueKYBHandler job_id (some st) ad
        = (.badRequest "Job is not awaiting additional information", some st)) := by
  refine ⟨?_, ?_, ?_⟩
  · intro h job
    unfold continueKYBHandler
    rw [h]
    simp
  · intro h
    unfold continueKYBHandler
    rw [h]
    simp
  · intro h hst
    unfold continueKYBHandler
    rw [h]
    simp [hst]

/-- C8 witness: the three guard responses at concrete inputs, including
that a completed job is left unmodified by the rejected continuation. -/
theorem continueKYB_guards_app :
    continueKYBHandler none none ⟨none, none, none⟩
      = (.badRequest "job_id is required", none)
    ∧ continueKYBHandler (some "j1") none ⟨none, none, none⟩
      = (.notFound "Job not found", none)
    ∧ continueKYBHandler (some "j1") (some ⟨"completed", []⟩) ⟨none, none, none⟩
      = (.badRequest "Job is not awaiting additional information",
         some ⟨"completed", []⟩) :=
  ⟨(continueKYB_guards none ⟨"completed", []⟩ ⟨none, none, none⟩).1 (by decide) none,
   (continueKYB_guards (some "j1") ⟨"completed", []⟩ ⟨none, none, none⟩).2.1 (by decide),
   (continueKYB_guards (some "j1") ⟨"completed", []⟩ ⟨none, none, none⟩).2.2
     (by decide) (by decide)⟩
/-! ## Result compilation in processCRN (kyb.js 1814-1939) -/

/-- JS String.prototype.toUpperCase, modelled character-wise over the
string's characters. -/
def jsToUpper (s : String) : String := String.mk (s.data.map Char.toUpper)

/-- The website-CRN match test used in the compiled result (kyb.js
1882, 1887, 1920, 1931): the scraped CRN is truthy and equals the
registry CRN case-insensitively. -/
def crnWebsiteMatches (crnFromWebsite : Option String) (crn : String) : Bool :=
  match crnFromWebsite with
  | none => false
  | some w => !(w == "") && (jsToUpper w == jsToUpper crn)

/-- Embedding of the verification_status expression compiled at kyb.js
lines 1881-1884, including the literal true short-circuit in the
condition: without valid registry data the status is no_company_found,
otherwise the condition (crnMatch || addressMatch || true) is evaluated
and decides between verified and the warning string. -/
def compiledVerificationStatus (hasValidData : Bool)
    (crnFromWebsite : Option String) (crn : String) (addressMatch : Bool) : String :=
  if !hasValidData then "no_company_found"
  else if crnWebsiteMatches crnFromWebsite crn || addressMatch || true then "verified"
  else "warning: validation issues found"

/-- The CRN-mismatch validation issue pushed at kyb.js line 1932; it
names both the website CRN and the registry CRN. -/
def crnMismatchIssue (w crn : String) : String :=
  "CRN mismatch: Website shows \"" ++ w ++ "\" but Companies House has \"" ++ crn ++ "\""

/-- Embedding of the validation_issues list compiled at kyb.js lines
1923 and 1930-1939: a CRN mismatch or a missing website CRN contributes
the first entry, and a failed address match with a website contributes
the second. -/
def compiledValidationIssues (crnFromWebsite : Option String) (crn : String)
    (website : Option String) (addressMatch : Bool) : List String :=
  (if truthy crnFromWebsite then
    (if !(jsToUpper (crnFromWebsite.getD "") == jsToUpper crn) then
      [crnMismatchIssue (crnFromWebsite.getD "") crn]
    else [])
  else if truthy website then ["CRN not found on company website"] else [])
  ++ (if !addressMatch && truthy website then
      ["Company address not found or doesn't match registered address"]
    else [])

/-- C1 (code bug): with valid registry data and a website-scraped CRN
that differs from the registry CRN, the compiled result still gets
verification status "verified" - the condition at kyb.js line 1882 ends
in a literal true, so the warning branch is dead code - even though
validation_issues records the CRN mismatch naming both CRNs. The spec's
promised "warning:"-status is therefore unreachable whenever registry
data exists. -/
theorem crnMismatch_status_bug :
    compiledVerificationStatus true (some "87654321") "12345678" false = "verified"
    ∧ ("warning:".data.isPrefixOf
        (compiledVerificationStatus true (some "87654321") "12345678" false).data) = false
    ∧ crnMismatchIssue "87654321" "12345678"
        ∈ compiledValidationIssues (some "87654321") "12345678"
            (some "https://example.com") false
    ∧ compiledValidationIssues (some "87654321") "12345678"
        (some "https://example.com") false ≠ []
    ∧ (∀ (cw : Option String) (crn : String) (am : Bool),
        compiledVerificationStatus true cw crn am = "verified") := by
  refine ⟨by decide, by decide, by decide, by decide, ?_⟩
  intro cw crn am
  unfold compiledVerificationStatus
  simp

/-! ## Website scraping (kyb.js 2730-3178) -/

/-- The website data object initialized at kyb.js lines 2735-2753 (the
last_updated timestamp is not modelled). -/
structure WebsiteData where
  url : String
  title : Option String
  meta_description : Option String
  meta_keywords : Option String
  company_name : Option String
  footer_text : Option String
  email_contacts : List String
  email : Option String
  phone_numbers : List String
  phone : Option String
  social_media : List String
  crn_found : Option String
  crn_location : Option String
  vat_number : Option String
  company_description : Option String
  address : Option String
deriving DecidableEq

/-- The freshly initialized website data object for a URL. -/
def initialWebsiteData (url : String) : WebsiteData :=
  ⟨url, none, none, none, none, none, [], none, [], none, [], none, none,
   none, none, none⟩

/-- The value scrapeWebsiteForCRN returns: a possibly found CRN, the
accumulated notes and the website data object. -/
structure ScrapeResult where
  crn : Option String
  notes : List String
  scrapeData : WebsiteData
deriving DecidableEq

/-- The outcome of the try block of scrapeWebsiteForCRN: either one of
its returns (kyb.js 3122 or 3172), or a thrown error caught at 3174,
together with the notes and website data the block had accumulated (the
source mutates both in place, so the catch branch sees the partial
values). -/
inductive ScrapeAttempt where
  | success (r : ScrapeResult)
  | failure (errMsg : String) (notesSoFar : List String) (dataSoFar : WebsiteData)

/-- Embedding of scrapeWebsiteForCRN (kyb.js 2730-3178). The network
fetch and HTML parsing inside the try block are abstracted as the
`attempt` argument; everything before the try - the initial note, the
website data object and the protocol normalization of the URL (kyb.js
2756-2760) - is embedded directly. The total return type records that
no failure escapes: the catch branch (kyb.js 3174-3177) turns any error
into an ordinary result with a null CRN, an error note appended to the
notes, and the partially filled website data. -/
def scrapeWebsiteForCRN (url companyName : String)
    (attempt : String → String → List String → WebsiteData → ScrapeAttempt) :
    ScrapeResult :=
  let notes : List String := ["Starting website scrape for: " ++ url]
  let hasProto := url.startsWith "http://" || url.startsWith "https://"
  let url2 := if hasProto then url else "https://" ++ url
  let notes2 :=
    if hasProto then notes
    else notes ++ ["Added https:// protocol to URL: " ++ url2]
  let websiteData := { initialWebsiteData url with url := url2 }
  match attempt url2 companyName notes2 websiteData with
  | .success r => r
  | .failure msg ns ds =>
      { crn := none, notes := ns ++ ["Error scraping website: " ++ msg],
        scrapeData := ds }

/-- C9: scrapeWebsiteForCRN never propagates a fetch or parse failure:
whenever the fetch-and-parse attempt fails, the function still returns a
result, with a null CRN, the error note appended to the notes collected
so far, and the partially filled website data object. (That the
embedding is a total function into ScrapeResult is the no-throw part of
the contract.) -/
theorem scrape_error_returns_result (url companyName msg : String)
    (ns : List String) (ds : WebsiteData)
    (attempt : String → String → List String → WebsiteData → ScrapeAttempt)
    (h : ∀ u cn n d, attempt u cn n d = .failure msg ns ds) :
    scrapeWebsiteForCRN url companyName attempt
      = { crn := none, notes := ns ++ ["Error scraping website: " ++ msg],
          scrapeData := ds }
    ∧ (scrapeWebsiteForCRN url companyName attempt).crn = none
    ∧ "Error scraping website: " ++ msg
        ∈ (scrapeWebsiteForCRN url companyName attempt).notes := by
  have heq : scrapeWebsiteForCRN url companyName attempt
      = { crn := none, notes := ns ++ ["Error scraping website: " ++ msg],
          scrapeData := ds } := by
    unfold scrapeWebsiteForCRN
    simp only [h]
  refine ⟨heq, by rw [heq], by rw [heq]; simp⟩

/-- C9 witness: a timed-out fetch on a concrete URL produces the
not-found result with the error note. -/
theorem scrape_error_returns_result_app :
    scrapeWebsiteForCRN "example.com" "Example Ltd"
        (fun _ _ _ _ => .failure "timeout of 10000ms exceeded" ["Fetching website content..."]
          (initialWebsiteData "https://example.com"))
      = { crn := none,
          notes := ["Fetching website content...",
            "Error scraping website: timeout of 10000ms exceeded"],
          scrapeData := initialWebsiteData "https://example.com" } :=
  (scrape_error_returns_result "example.com" "Example Ltd"
    "timeout of 10000ms exceeded" ["Fetching website content..."]
    (initialWebsiteData "https://example.com")
    (fun _ _ _ _ => .failure "timeout of 10000ms exceeded" ["Fetching website content..."]
      (initialWebsiteData "https://example.com"))
    (fun _ _ _ _ => rfl)).1
